import Mathlib

/-!
Shallow embedding of the JRE transcript-collection pipeline
(`src/data_collection/collection_monitor.py`, `data_quality.py`,
`youtube_transcript_fetcher.py`, `src/database/db_manager.py`,
`models.py`), together with proofs settling the frozen claims about it.

Conventions of the embedding:
* Python `dict` / `collections.defaultdict` are modelled by `PyDict`:
  an association list of entries plus an optional default value.
  `default = some d` is `defaultdict(lambda: d)`; `default = none` is a
  plain `dict` (which is what `json.load` produces when a persisted
  stats blob is read back).  Subscripting a missing key raises
  `KeyError` on a plain dict, so dictionary reads are `Except`-valued.
* Python `datetime` values are modelled by `PyDateTime`, a year plus a
  rational position within the year, ordered lexicographically;
  `datetime(2017, 1, 1)` is `⟨2017, 0⟩` and `.year` is the first
  component.  Calendar days (the ISO-string keys of `daily_stats`) are
  modelled by `Int` day ordinals, so `today - days` and `+ 1 day` are
  integer arithmetic.
* Floats (`political_score`, `processing_time`, segment times) are
  modelled by `ℚ`.
* Fallible Python code (statements that can raise) is `Except String`-
  valued; the error string names the Python exception class raised.
-/

namespace JRE

/-- A Python dictionary.  `entries` keeps insertion order as a Python
dict does; `default` is `some d` for a `defaultdict` whose factory
returns `d`, and `none` for a plain `dict` (e.g. one obtained from
`json.load`). -/
structure PyDict (κ α : Type) where
  entries : List (κ × α)
  default : Option α
deriving Repr, DecidableEq

/-- Replace the value at a key in an association list, or append the
binding at the end (Python dicts update in place and append new keys). -/
def setAssoc [BEq κ] : List (κ × α) → κ → α → List (κ × α)
  | [], k, v => [(k, v)]
  | (k', v') :: rest, k, v =>
    if k' == k then (k, v) :: rest else (k', v') :: setAssoc rest k v

/-- Read `d[k]`: a present key yields its value; a missing key yields the
default on a `defaultdict` and raises `KeyError` on a plain dict. -/
def PyDict.getE [BEq κ] (m : PyDict κ α) (k : κ) : Except String α :=
  match m.entries.lookup k with
  | some v => .ok v
  | none =>
    match m.default with
    | some d => .ok d
    | none => .error "KeyError"

/-- Write `d[k] = v`. -/
def PyDict.set [BEq κ] (m : PyDict κ α) (k : κ) (v : α) : PyDict κ α :=
  { m with entries := setAssoc m.entries k v }

/-- Update `d[k] = f(d[k])`, the shape of Python's `d[k] += 1`: read (raising
`KeyError` on a plain dict with the key absent, materialising the
default on a `defaultdict`), then write back. -/
def PyDict.modifyE [BEq κ] (m : PyDict κ α) (k : κ) (f : α → α) :
    Except String (PyDict κ α) := do
  let v ← m.getE k
  pure (m.set k (f v))

/-- A Python `datetime`: the year and a rational position inside the
year, compared lexicographically.  `.year` is the `year` field. -/
structure PyDateTime where
  year : Int
  frac : ℚ
deriving Repr, DecidableEq

/-- Strict comparison `a < b` on datetimes (lexicographic on (year, frac)). -/
def PyDateTime.ltb (a b : PyDateTime) : Bool :=
  a.year < b.year || (a.year == b.year && a.frac < b.frac)

/-- The constant `datetime(2017, 1, 1)` from `data_quality.py`. -/
def dt2017 : PyDateTime := ⟨2017, 0⟩

/-- One value of the `daily_stats` mapping
(`collection_monitor.py`, `_init_stats`). -/
structure DailyBucket where
  videos_processed : Nat
  segments_collected : Nat
  errors : Nat
deriving Repr, DecidableEq

/-- The zero bucket produced by the `daily_stats` defaultdict factory. -/
def DailyBucket.zero : DailyBucket := ⟨0, 0, 0⟩

/-- The monitor's persisted stats blob (`collection_monitor.py`).
`start_time` / `last_update` timestamps carry no information the claims
touch and are omitted.  Year keys are the (stringified, here `Int`)
publication years; daily keys are day ordinals standing for the ISO
date strings. -/
structure Stats where
  total_videos : Nat
  processed_videos : Nat
  failed_videos : Nat
  total_segments : Nat
  total_political_segments : Nat
  videos_by_year : PyDict Int Nat
  videos_by_guest : PyDict String Nat
  political_categories : PyDict String Nat
  processing_times : List ℚ
  error_counts : PyDict String Nat
  daily_stats : PyDict Int DailyBucket
deriving Repr, DecidableEq

/-- Fresh state from `_init_stats`; every nested mapping is a `defaultdict`. -/
def init_stats : Stats where
  total_videos := 0
  processed_videos := 0
  failed_videos := 0
  total_segments := 0
  total_political_segments := 0
  videos_by_year := ⟨[], some 0⟩
  videos_by_guest := ⟨[], some 0⟩
  political_categories := ⟨[], some 0⟩
  processing_times := []
  error_counts := ⟨[], some 0⟩
  daily_stats := ⟨[], some DailyBucket.zero⟩

/-- Forget a dict's default: `json.dump` writes only the entries, and
`json.load` reads them back as a plain `dict`. -/
def PyDict.stripDefault (m : PyDict κ α) : PyDict κ α :=
  { m with default := none }

/-- Loading a persisted blob in `_load_stats`: `self.stats = json.load(f)`
turns every nested `defaultdict` of the saved state into a plain
`dict` with the same entries. -/
def load_stats (s : Stats) : Stats :=
  { s with
    videos_by_year := s.videos_by_year.stripDefault
    videos_by_guest := s.videos_by_guest.stripDefault
    political_categories := s.political_categories.stripDefault
    error_counts := s.error_counts.stripDefault
    daily_stats := s.daily_stats.stripDefault }

/-- A row of the `videos` table (`models.py`) as the collection code
reads it.  Optional columns are `Option`; string columns use `""` for
the falsy/absent value that `if not getattr(video, field)` tests. -/
structure Video where
  video_id : String
  title : String
  published_at : Option PyDateTime
  channel_title : String
  episode_number : Option Int
  political_score : Option ℚ
  political_categories : List String
  guest : Option String
  is_processed : Bool
deriving Repr, DecidableEq

/-- Embedding of `update_video_processed` (`collection_monitor.py`).  The caller's
`self.db.get_video(video_id)` resolution is the `video : Option Video`
argument (`none` = unresolvable, early return).  `today` is the current
UTC day ordinal.  Dictionary subscripts can raise `KeyError` on a
loaded (plain-dict) state and `video.published_at.year` raises on a
missing date, hence the `Except`. -/
def update_video_processed (s : Stats) (video : Option Video) (success : Bool)
    (segment_count : Nat) (processing_time : ℚ) (today : Int) :
    Except String Stats := do
  match video with
  | none => pure s
  | some v =>
    let s := { s with total_videos := s.total_videos + 1 }
    let s :=
      if success then
        { s with processed_videos := s.processed_videos + 1,
                 total_segments := s.total_segments + segment_count }
      else
        { s with failed_videos := s.failed_videos + 1 }
    let d ← match v.published_at with
      | some d => pure d
      | none => Except.error "AttributeError"
    let yb ← s.videos_by_year.modifyE d.year (· + 1)
    let s := { s with videos_by_year := yb }
    let s ← match v.guest with
      | some g => do
          let gb ← s.videos_by_guest.modifyE g (· + 1)
          pure { s with videos_by_guest := gb }
      | none => pure s
    let s ←
      if v.political_categories.isEmpty then pure s
      else do
        let pc ← v.political_categories.foldlM
          (fun (m : PyDict String Nat) category => m.modifyE category (· + 1))
          s.political_categories
        pure { s with political_categories := pc }
    let s :=
      if processing_time > 0 then
        { s with processing_times := s.processing_times ++ [processing_time] }
      else s
    let db ← s.daily_stats.modifyE today
      (fun b => { b with videos_processed := b.videos_processed + 1 })
    let s := { s with daily_stats := db }
    let db ← s.daily_stats.modifyE today
      (fun b => { b with segments_collected := b.segments_collected + segment_count })
    pure { s with daily_stats := db }

/-- Embedding of `record_error` (`collection_monitor.py`).  `if video_id:` is Python
truthiness, so `none` and `some ""` both skip the failed-video
increment. -/
def record_error (s : Stats) (error_type : String) (video_id : Option String)
    (today : Int) : Except String Stats := do
  let ec ← s.error_counts.modifyE error_type (· + 1)
  let s := { s with error_counts := ec }
  let s :=
    if video_id.getD "" ≠ "" then
      { s with failed_videos := s.failed_videos + 1 }
    else s
  let db ← s.daily_stats.modifyE today (fun b => { b with errors := b.errors + 1 })
  pure { s with daily_stats := db }

/-- One record of `get_daily_report`'s `daily_data`. -/
structure DailyRecord where
  date : Int
  videos_processed : Nat
  segments_collected : Nat
  errors : Nat
deriving Repr, DecidableEq

/-- The body of `get_daily_report`'s `while current_date <= end_date`
loop: one `daily_stats[date_str]` subscript per day, in order. -/
def dailyData (s : Stats) : List Int → Except String (List DailyRecord)
  | [] => .ok []
  | d :: rest => do
    let b ← s.daily_stats.getE d
    let tail ← dailyData s rest
    pure (⟨d, b.videos_processed, b.segments_collected, b.errors⟩ :: tail)

/-- Embedding of `get_daily_report` (`collection_monitor.py`): `end_date` is today,
`start_date = end_date - timedelta(days=days)`, and the loop visits
`start_date, start_date + 1, …, end_date`.  Returns the `daily_data`
list (the `period` envelope is determined by `days`/`today` and
carries nothing further). -/
def get_daily_report (s : Stats) (days : Nat) (today : Int) :
    Except String (List DailyRecord) :=
  dailyData s ((List.range (days + 1)).map (fun i => today - days + i))

/-!  ## Quality checker (`data_quality.py`)  -/

/-- Python's `str.lower()`: lower-case each character (the keywords and
issue tests here only involve ASCII). -/
def pyLower (s : String) : String :=
  ⟨s.data.map Char.toLower⟩

/-- Substring test on character lists (Python's `pat in text`). -/
def listContains [BEq α] (pat : List α) : List α → Bool
  | [] => pat.isEmpty
  | c :: rest => pat.isPrefixOf (c :: rest) || listContains pat rest

/-- Python's `pat in text` on strings. -/
def strContains (text pat : String) : Bool :=
  listContains pat.data text.data

/-- Embedding of `validate_video_metadata` (`data_quality.py`), applied to a resolved
video row (`self.db.get_video` already succeeded) with `now` the value
of `datetime.utcnow()`.  Issues are the dict entries in insertion
order.  Note the truthiness tests: `if not getattr(video, field)` is
`= ""` / `isNone`, and `if video.episode_number:` skips both `None`
and `0`. -/
def validate_video_metadata (video : Video) (now : PyDateTime) :
    Bool × List (String × String) :=
  let issues : List (String × String) := []
  let issues := if video.title == "" then
      issues ++ [("missing_title", "Required field title is missing")] else issues
  let issues := if video.published_at.isNone then
      issues ++ [("missing_published_at", "Required field published_at is missing")] else issues
  let issues := if video.video_id == "" then
      issues ++ [("missing_video_id", "Required field video_id is missing")] else issues
  let issues := if video.channel_title == "" then
      issues ++ [("missing_channel_title", "Required field channel_title is missing")] else issues
  let issues :=
    match video.published_at with
    | some d =>
      let issues := if now.ltb d then
          issues ++ [("future_date", "Publication date is in the future")] else issues
      if d.ltb dt2017 then
          issues ++ [("date_range", "Publication date is before 2017")] else issues
    | none => issues
  let issues :=
    match video.episode_number with
    | some n =>
      if n ≠ 0 ∧ n < 1 then
        issues ++ [("episode_number", "Invalid episode number format")] else issues
    | none => issues
  let issues :=
    match video.political_score with
    | some p =>
      if ¬(0 ≤ p ∧ p ≤ 1) then
        issues ++ [("political_score", "Political score out of range")] else issues
    | none => issues
  (issues.isEmpty, issues)

/-- One group emitted by `check_duplicate_videos`. -/
structure DupGroup where
  videos : List Video
  reason : String
deriving Repr, DecidableEq

/-- The adjacency test of `check_duplicate_videos`:
`current.title.lower() == next_video.title.lower() or
abs(current.episode_number - next_video.episode_number) <= 1`.
The `or` short-circuits; subtracting a `None` episode number raises
`TypeError`. -/
def similar_titles_check (current next_video : Video) : Except String Bool :=
  if pyLower current.title == pyLower next_video.title then .ok true
  else
    match current.episode_number, next_video.episode_number with
    | some m, some n => .ok ((m - n).natAbs ≤ 1)
    | _, _ => .error "TypeError"

/-- The `for i in range(len(videos) - 1)` scan of
`check_duplicate_videos`, carrying `current_group` and the `duplicates`
accumulator. -/
def duplicate_scan : List Video → List Video → List DupGroup →
    Except String (List DupGroup)
  | current :: next_video :: rest, current_group, duplicates => do
    let similar ← similar_titles_check current next_video
    if similar then
      let current_group :=
        if current_group.isEmpty then [current, next_video]
        else current_group ++ [next_video]
      duplicate_scan (next_video :: rest) current_group duplicates
    else
      let duplicates :=
        if current_group.length > 1 then
          duplicates ++ [⟨current_group, "similar_titles"⟩]
        else duplicates
      duplicate_scan (next_video :: rest) [] duplicates
  | _, current_group, duplicates =>
    .ok (if current_group.length > 1 then
      duplicates ++ [⟨current_group, "similar_titles"⟩] else duplicates)

/-- Embedding of `check_duplicate_videos` (`data_quality.py`).  The argument is the
storage query's result, `session.query(Video).order_by(Video.title)`,
i.e. the store's videos already ordered by title. -/
def check_duplicate_videos (videos : List Video) : Except String (List DupGroup) :=
  duplicate_scan videos [] []

/-!  ## Heuristic extractor (`youtube_transcript_fetcher.py`)  -/

/-- The fixed `political_keywords` table of `JRETranscriptFetcher`. -/
def political_keywords : List (String × List String) :=
  [("core_politics",
    ["politics", "political", "election", "democracy", "government",
     "policy", "legislation", "congress", "senate", "house"]),
   ("parties_ideologies",
    ["democrat", "republican", "liberal", "conservative",
     "libertarian", "progressive", "left wing", "right wing",
     "socialist", "capitalist"]),
   ("political_figures",
    ["trump", "biden", "obama", "clinton", "sanders", "warren",
     "pence", "harris", "pelosi", "mcconnell"]),
   ("policy_issues",
    ["immigration", "healthcare", "climate change", "foreign policy",
     "censorship", "free speech", "gun control", "abortion",
     "taxation", "welfare"]),
   ("cultural_issues",
    ["woke", "cancel culture", "identity politics", "social justice",
     "critical race theory", "gender", "equality", "diversity"])]

/-- Python's `sum(1 for keyword in keywords if keyword.lower() in text)`. -/
def countMatches (text : String) (keywords : List String) : Nat :=
  keywords.countP (fun keyword => strContains text (pyLower keyword))

/-- Embedding of `calculate_political_score` (`youtube_transcript_fetcher.py`):
lower-case `f"{title} {description}"`, add `matches * 0.2` per category
with at least one match, collect those categories, clamp the score with
`min(score, 1.0)`. -/
def calculate_political_score (title description : String) :
    ℚ × List String :=
  let text := pyLower (title ++ " " ++ description)
  let acc := political_keywords.foldl
    (fun (acc : ℚ × List String) c =>
      let matchCount := countMatches text c.2
      if matchCount > 0 then (acc.1 + matchCount * (1 / 5), acc.2 ++ [c.1])
      else acc)
    (0, [])
  (min acc.1 1, acc.2)

/-- The per-category match counts of a title/description pair, in the
fixed category order. -/
def categoryMatches (title description : String) : List Nat :=
  political_keywords.map
    (fun c => countMatches (pyLower (title ++ " " ++ description)) c.2)

/-!  ## Transcript fetch with backoff  -/

/-- A transcript segment dict as returned by the transcript API. -/
structure RawSegment where
  text : String
  start : ℚ
  duration : ℚ
deriving Repr, DecidableEq

/-- Outcome of one `YouTubeTranscriptApi.get_transcript` call. -/
inductive FetchResult where
  | ok (transcript : List RawSegment)
  | err (msg : String)
deriving Repr, DecidableEq

/-- Test `"too many requests" in str(e).lower()`: the rate-limit-class test
of `get_transcript_with_backoff`. -/
def is_rate_limited (msg : String) : Bool :=
  strContains (pyLower msg) "too many requests"

/-- The observable outcome of one `get_transcript_with_backoff` call:
the returned transcript (if any), the `time.sleep` durations performed
in order, and how many fetch attempts were made. -/
structure BackoffRun where
  result : Option (List RawSegment)
  sleeps : List Nat
  attempts : Nat
deriving Repr, DecidableEq

/-- The `while attempt < max_attempts` loop of
`get_transcript_with_backoff` with `max_attempts = 3`; `fetch k` is the
outcome of the `k`-th (0-based) API call.  `fuel` is the number of
attempts still allowed, `max_attempts - attempt`, so `fuel = 0` is the
loop guard `attempt < max_attempts` failing.  A success returns the
transcript; a rate-limit-class error sleeps `(2 ** attempt) * 1`
seconds and retries; any other error returns `None` at once. -/
def backoff_loop (fetch : Nat → FetchResult) : (attempt fuel : Nat) → BackoffRun
  | _, 0 => ⟨none, [], 0⟩
  | attempt, fuel + 1 =>
    match fetch attempt with
    | .ok t => ⟨some t, [], 1⟩
    | .err m =>
      if is_rate_limited m then
        let r := backoff_loop fetch (attempt + 1) fuel
        ⟨r.result, 2 ^ attempt :: r.sleeps, r.attempts + 1⟩
      else ⟨none, [], 1⟩

/-- Embedding of `get_transcript_with_backoff` (`youtube_transcript_fetcher.py`):
start at `attempt = 0` with `max_attempts = 3` attempts allowed. -/
def get_transcript_with_backoff (fetch : Nat → FetchResult) : BackoffRun :=
  backoff_loop fetch 0 3

/-!  ## Database (`db_manager.py`, `models.py`) and `process_video`  -/

/-- A row of the `transcript_segments` table. -/
structure SegRow where
  video_id : String
  text : String
  start_time : ℚ
  duration : ℚ
deriving Repr, DecidableEq

/-- The relational store as the pipeline sees it: the `videos` table
and the `transcript_segments` table. -/
structure Db where
  videos : List Video
  segments : List SegRow
deriving Repr, DecidableEq

/-- Embedding of `get_video`: `query(Video).filter(Video.video_id == video_id).first()`. -/
def Db.get_video (db : Db) (video_id : String) : Option Video :=
  db.videos.find? (fun v => v.video_id == video_id)

/-- Embedding of `delete_video`: delete the video row; the
`cascade="all, delete-orphan"` relationship of `models.py` deletes its
transcript segments with it.  Returns whether a row was deleted. -/
def Db.delete_video (db : Db) (video_id : String) : Db × Bool :=
  match db.get_video video_id with
  | some _ =>
    ({ videos := db.videos.filter (fun v => !(v.video_id == video_id)),
       segments := db.segments.filter (fun r => !(r.video_id == video_id)) },
     true)
  | none => (db, false)

/-- Embedding of `add_video`: insert the row and return it, or roll back and return
`None` on an `IntegrityError`/exception at the storage boundary
(`insertOk = false`). -/
def Db.add_video (db : Db) (video : Video) (insertOk : Bool) :
    Db × Option Video :=
  if insertOk then ({ db with videos := db.videos ++ [video] }, some video)
  else (db, none)

/-- Embedding of `add_transcript_segments`: bulk-insert one row per raw segment.
The Python body wraps the whole insert in `try/except Exception`:
on a storage failure (`commitOk = false`) it rolls back and *returns
normally* — the result type shows no error can reach the caller. -/
def Db.add_transcript_segments (db : Db) (video_id : String)
    (segments : List RawSegment) (commitOk : Bool) : Db :=
  if commitOk then
    { db with segments := db.segments ++
        segments.map (fun s => ⟨video_id, s.text, s.start, s.duration⟩) }
  else db

/-- Embedding of `mark_video_processed`, abstracted to its outcome: `markOk = false`
covers the lock/flush/verify retry loop exhausting its attempts (row
unchanged, `False` returned); on success the row's `is_processed` flag
is set and `True` returned; a missing row returns `False`. -/
def Db.mark_video_processed (db : Db) (video_id : String) (markOk : Bool) :
    Db × Bool :=
  if markOk then
    match db.get_video video_id with
    | some _ =>
      ({ db with videos := db.videos.map (fun v =>
                    if v.video_id == video_id then
                      { v with is_processed := true } else v) },
       true)
    | none => (db, false)
  else (db, false)

/-- Number of stored transcript segments for a video id. -/
def Db.segment_count (db : Db) (video_id : String) : Nat :=
  (db.segments.filter (fun r => r.video_id == video_id)).length

/-- Observable outcome of one `process_video` call: its boolean return,
the store afterwards, the `monitor.record_error` types recorded in
order, and the `monitor.update_video_processed(success, segment_count)`
call if one was made. -/
structure PVResult where
  success : Bool
  db : Db
  errors : List String
  monitored : Option (Bool × Nat)
deriving Repr, DecidableEq

/-- The tail of `process_video` after the existing-video check:
transcript fetch outcome (`transcript`, already through the backoff
helper), `add_video`, `add_transcript_segments` (whose storage fault is
`segCommitOk = false`), the advisory quality checks (pure reads), and
mark-processed with re-read verification. -/
def process_video_fresh (db : Db) (video_data : Video)
    (transcript : Option (List RawSegment))
    (addOk segCommitOk markOk : Bool) : PVResult :=
  let video_id := video_data.video_id
  match transcript with
  | none => ⟨false, db, ["no_transcript"], none⟩
  | some t =>
    if t.isEmpty then ⟨false, db, ["no_transcript"], none⟩
    else
      match db.add_video video_data addOk with
      | (db, none) => ⟨false, db, ["database_error"], none⟩
      | (db, some _) =>
        let db := db.add_transcript_segments video_id t segCommitOk
        match db.mark_video_processed video_id markOk with
        | (db, true) =>
          match db.get_video video_id with
          | some processed_video =>
            if processed_video.is_processed then
              ⟨true, db, [], some (true, t.length)⟩
            else ⟨false, db, ["status_verification_error"], none⟩
          | none => ⟨false, db, ["status_verification_error"], none⟩
        | (db, false) => ⟨false, db, [], none⟩

/-- Embedding of `process_video` (`youtube_transcript_fetcher.py`).  `if not
video_id:` fails fast on a falsy id; an existing processed video is a
success no-op; an existing unprocessed video is deleted (cascading its
segments) before the fresh path runs. -/
def process_video (db : Db) (video_data : Video)
    (transcript : Option (List RawSegment))
    (addOk segCommitOk markOk : Bool) : PVResult :=
  let video_id := video_data.video_id
  if video_id == "" then ⟨false, db, [], none⟩
  else
    match db.get_video video_id with
    | some existing_video =>
      if existing_video.is_processed then ⟨true, db, [], none⟩
      else
        process_video_fresh (db.delete_video video_id).1 video_data
          transcript addOk segCommitOk markOk
    | none =>
      process_video_fresh db video_data transcript addOk segCommitOk markOk

/-!  ## Helper lemmas  -/

theorem ok_bind (v : α) (f : α → Except ε β) :
    (Except.ok v >>= f) = f v := rfl

theorem lookup_setAssoc_self [BEq κ] [LawfulBEq κ] (l : List (κ × α)) (k : κ) (v : α) :
    (setAssoc l k v).lookup k = some v := by
  induction l with
  | nil => simp [setAssoc]
  | cons p rest ih =>
    obtain ⟨k', v'⟩ := p
    by_cases h : k' = k
    · simp [setAssoc, h]
    · have hb : (k' == k) = false := beq_eq_false_iff_ne.2 h
      have hb' : (k == k') = false := beq_eq_false_iff_ne.2 (Ne.symm h)
      simp [setAssoc, hb, List.lookup, hb', ih]

theorem PyDict.getE_set_self [BEq κ] [LawfulBEq κ] (m : PyDict κ α) (k : κ) (v : α) :
    (m.set k v).getE k = .ok v := by
  simp [PyDict.getE, PyDict.set, lookup_setAssoc_self]

theorem PyDict.default_set [BEq κ] (m : PyDict κ α) (k : κ) (v : α) :
    (m.set k v).default = m.default := rfl

theorem PyDict.getE_of_default [BEq κ] (m : PyDict κ α) (k : κ) (d : α)
    (h : m.default = some d) : ∃ v, m.getE k = .ok v := by
  unfold PyDict.getE
  cases m.entries.lookup k with
  | some v => exact ⟨v, rfl⟩
  | none => exact ⟨d, by rw [h]⟩

theorem PyDict.modifyE_eq_ok [BEq κ] (m : PyDict κ α) (k : κ) (f : α → α) (v : α)
    (h : m.getE k = .ok v) : m.modifyE k f = .ok (m.set k (f v)) := by
  simp [PyDict.modifyE, h]

theorem foldlM_modifyE_ok [BEq κ] (l : List κ) (m : PyDict κ Nat) (d : Nat)
    (h : m.default = some d) :
    ∃ m', l.foldlM (fun (acc : PyDict κ Nat) c => acc.modifyE c (· + 1)) m = .ok m' ∧
      m'.default = some d := by
  induction l generalizing m with
  | nil => exact ⟨m, rfl, h⟩
  | cons c rest ih =>
    obtain ⟨v, hv⟩ := PyDict.getE_of_default m c d h
    obtain ⟨m', hm', hd'⟩ := ih (m.set c (v + 1)) (by rw [PyDict.default_set]; exact h)
    refine ⟨m', ?_, hd'⟩
    rw [List.foldlM_cons, PyDict.modifyE_eq_ok m c _ v hv]
    exact hm'

/-- Every `daily_stats` subscript succeeds on a fresh-style state and
yields the stored bucket, or the zero default for an absent day. -/
theorem dailyData_defaultZero (s : Stats)
    (h : s.daily_stats.default = some DailyBucket.zero) (l : List Int) :
    dailyData s l = .ok (l.map fun day =>
      match s.daily_stats.entries.lookup day with
      | some b => ⟨day, b.videos_processed, b.segments_collected, b.errors⟩
      | none => ⟨day, 0, 0, 0⟩) := by
  induction l with
  | nil => rfl
  | cons day rest ih =>
    have hget : s.daily_stats.getE day = .ok
        ((s.daily_stats.entries.lookup day).getD DailyBucket.zero) := by
      unfold PyDict.getE
      cases s.daily_stats.entries.lookup day with
      | some b => rfl
      | none => rw [h]; rfl
    simp only [dailyData, hget, ok_bind, ih, List.map_cons]
    cases s.daily_stats.entries.lookup day <;> rfl

/-!  ## Claim theorems  -/

/-- A concrete resolvable video row used at concrete monitor inputs. -/
def sampleVideo : Video :=
  ⟨"vid1", "Title", some ⟨2020, 0⟩, "JRE", some 5, some 1,
   ["core_politics"], some "Alice", false⟩

/-- A fresh-style stats state with activity recorded on day 3. -/
def activity_stats : Stats :=
  { init_stats with daily_stats := ⟨[(3, ⟨2, 5, 1⟩)], some DailyBucket.zero⟩ }

/-- C1: on a fresh-style state (`daily_stats` still a zero-defaulting
`defaultdict`), `get_daily_report days` does return `days + 1` records,
one per day from `today - days` to `today`, the stored bucket for days
with activity and an all-zero record otherwise.  But on a state loaded
from a persisted stats file the nested maps are plain dicts, and a day
with no recorded activity raises `KeyError` instead of yielding the
zero record the claim requires: already `days = 0` on a reloaded fresh
state fails. -/
theorem get_daily_report_zero_fills_fresh_but_raises_on_loaded :
    (∀ (s : Stats) (days : Nat) (today : Int),
        s.daily_stats.default = some DailyBucket.zero →
        get_daily_report s days today =
          .ok ((List.range (days + 1)).map fun i =>
            let day := today - days + i
            match s.daily_stats.entries.lookup day with
            | some b => ⟨day, b.videos_processed, b.segments_collected, b.errors⟩
            | none => ⟨day, 0, 0, 0⟩)) ∧
    get_daily_report activity_stats 2 4 =
      .ok [⟨2, 0, 0, 0⟩, ⟨3, 2, 5, 1⟩, ⟨4, 0, 0, 0⟩] ∧
    get_daily_report (load_stats init_stats) 0 0 = .error "KeyError" := by
  refine ⟨fun s days today h => ?_, rfl, rfl⟩
  rw [get_daily_report, dailyData_defaultZero s h, List.map_map]
  rfl

/-- Witness for the hypothesis-bearing conjunct of the C1 theorem:
the fresh initial state satisfies it, with a concrete window. -/
theorem get_daily_report_zero_fills_witness :
    init_stats.daily_stats.default = some DailyBucket.zero ∧
    get_daily_report init_stats 1 7 = .ok [⟨6, 0, 0, 0⟩, ⟨7, 0, 0, 0⟩] := by
  refine ⟨rfl, ?_⟩
  rw [get_daily_report_zero_fills_fresh_but_raises_on_loaded.1 init_stats 1 7 rfl]
  rfl

/-- C8: after `_load_stats` reads a persisted file, the nested maps are
plain dicts, so incrementing an absent year / guest / category /
error-type / daily bucket raises `KeyError` instead of succeeding:
`update_video_processed` and `record_error` are not total on loaded
states.  Here the loaded state is a freshly-initialised blob saved and
reloaded (all maps empty), and both operations raise. -/
theorem monitor_loaded_state_raises_keyerror :
    update_video_processed (load_stats init_stats) (some sampleVideo) true 5 1 0 =
      .error "KeyError" ∧
    record_error (load_stats init_stats) "no_transcript" none 0 =
      .error "KeyError" :=
  ⟨rfl, rfl⟩

/-- A fresh-style monitor state: every nested map still carries its
`defaultdict` factory, so every increment can resolve its key. -/
def Stats.Defaulted (s : Stats) : Prop :=
  s.videos_by_year.default.isSome ∧ s.videos_by_guest.default.isSome ∧
  s.political_categories.default.isSome ∧ s.error_counts.default.isSome ∧
  s.daily_stats.default.isSome

theorem PyDict.getE_of_isSome [BEq κ] (m : PyDict κ α) (k : κ)
    (h : m.default.isSome) : ∃ v, m.getE k = .ok v := by
  obtain ⟨d, hd⟩ := Option.isSome_iff_exists.1 h
  exact PyDict.getE_of_default m k d hd

/-- C2 counterexample: calling `update_video_processed` with
`success = False` on a resolvable video changes more than the
total/failed counters — the per-year bucket, today's daily bucket and
(here, with `processing_time = 2 > 0`) the processing-time samples all
change. -/
theorem update_video_processed_failure_not_frame_silent :
    (update_video_processed init_stats (some sampleVideo) false 3 2 0).map
        Stats.videos_by_year ≠ .ok init_stats.videos_by_year ∧
    (update_video_processed init_stats (some sampleVideo) false 3 2 0).map
        Stats.daily_stats ≠ .ok init_stats.daily_stats ∧
    (update_video_processed init_stats (some sampleVideo) false 3 2 0).map
        Stats.processing_times ≠ .ok init_stats.processing_times := by
  refine ⟨fun h => absurd (Except.ok.inj h) (by decide),
          fun h => absurd (Except.ok.inj h) (by decide),
          fun h => absurd (Except.ok.inj h) ?_⟩
  intro hl
  simpa using congrArg List.length hl

/-- Invert a successful `Except` bind. -/
theorem bind_ok_inv {ε α β : Type} {x : Except ε α} {f : α → Except ε β} {b : β}
    (h : (x >>= f) = .ok b) : ∃ a, x = .ok a ∧ f a = .ok b := by
  cases x with
  | ok a => exact ⟨a, rfl, h⟩
  | error e =>
    rw [show ((Except.error e : Except ε α) >>= f) = Except.error e from rfl] at h
    cases h

theorem pure_bind_ok {ε α β : Type} (v : α) (f : α → Except ε β) :
    ((pure v : Except ε α) >>= f) = f v := rfl

theorem error_bind {ε α β : Type} (e : ε) (f : α → Except ε β) :
    ((Except.error e : Except ε α) >>= f) = Except.error e := rfl

/-- Invert a successful `d[k] = f(d[k])`. -/
theorem PyDict.modifyE_ok_inv [BEq κ] {m m' : PyDict κ α} {k : κ} {f : α → α}
    (h : m.modifyE k f = .ok m') : ∃ v, m.getE k = .ok v ∧ m' = m.set k (f v) := by
  unfold PyDict.modifyE at h
  obtain ⟨v, hv, hf⟩ := bind_ok_inv h
  exact ⟨v, hv, (Except.ok.inj hf).symm⟩

/-- C2 amended: whenever a `success = False` call on a resolvable video
returns at all, it increments `total_videos` and `failed_videos` and
leaves `processed_videos` and `total_segments` unchanged — but it also
increments the per-year bucket of the publication year, increments the
per-guest bucket when a guest is linked, appends a processing-time
sample when `processing_time > 0`, and stamps today's daily bucket
(`videos_processed + 1`, `segments_collected + segment_count`);
`political_categories` is unchanged only when the video carries no
categories. -/
theorem update_video_processed_failure_profile (s s' : Stats) (v : Video)
    (c : Nat) (t : ℚ) (today : Int)
    (h : update_video_processed s (some v) false c t today = .ok s') :
    s'.total_videos = s.total_videos + 1 ∧
    s'.failed_videos = s.failed_videos + 1 ∧
    s'.processed_videos = s.processed_videos ∧
    s'.total_segments = s.total_segments ∧
    (∃ d n, v.published_at = some d ∧
      s.videos_by_year.getE d.year = .ok n ∧
      s'.videos_by_year = s.videos_by_year.set d.year (n + 1)) ∧
    (v.guest = none → s'.videos_by_guest = s.videos_by_guest) ∧
    (∀ g, v.guest = some g → ∃ n, s.videos_by_guest.getE g = .ok n ∧
      s'.videos_by_guest = s.videos_by_guest.set g (n + 1)) ∧
    (v.political_categories = [] →
      s'.political_categories = s.political_categories) ∧
    s'.processing_times =
      (if 0 < t then s.processing_times ++ [t] else s.processing_times) ∧
    (∃ b, s.daily_stats.getE today = .ok b ∧
      s'.daily_stats = (s.daily_stats.set today
          ⟨b.videos_processed + 1, b.segments_collected, b.errors⟩).set today
          ⟨b.videos_processed + 1, b.segments_collected + c, b.errors⟩) := by
  rcases hpub : v.published_at with _ | d
  · simp only [update_video_processed, hpub, error_bind] at h
    exact Except.noConfusion h
  · rcases hguest : v.guest with _ | g <;>
      rcases hcats : v.political_categories with _ | ⟨c0, cs⟩ <;>
      simp only [update_video_processed, hpub, hguest, hcats, ok_bind, pure_bind_ok,
        List.isEmpty_nil, List.isEmpty_cons, Bool.false_eq_true, if_false, if_true] at h <;>
      obtain ⟨yb, hyb, h⟩ := bind_ok_inv h <;>
      obtain ⟨ny, hny, rfl⟩ := PyDict.modifyE_ok_inv hyb
    case some.none.nil.intro.intro.intro.intro =>
      split_ifs at h with ht <;>
      · obtain ⟨db1, hdb1, h⟩ := bind_ok_inv h
        obtain ⟨b0, hb0, rfl⟩ := PyDict.modifyE_ok_inv hdb1
        obtain ⟨db2, hdb2, h⟩ := bind_ok_inv h
        obtain ⟨b1, hb1, rfl⟩ := PyDict.modifyE_ok_inv hdb2
        rw [PyDict.getE_set_self] at hb1
        cases hb1
        injection h with h
        subst h
        refine ⟨rfl, rfl, rfl, rfl, ⟨d, ny, rfl, hny, rfl⟩, fun _ => rfl,
          ?_, fun _ => rfl, by simp [ht], ⟨b0, hb0, rfl⟩⟩
        intro g hgn
        cases hgn
    case some.none.cons.intro.intro.intro.intro =>
      obtain ⟨pc, _hpc, h⟩ := bind_ok_inv h
      split_ifs at h with ht <;>
      · obtain ⟨db1, hdb1, h⟩ := bind_ok_inv h
        obtain ⟨b0, hb0, rfl⟩ := PyDict.modifyE_ok_inv hdb1
        obtain ⟨db2, hdb2, h⟩ := bind_ok_inv h
        obtain ⟨b1, hb1, rfl⟩ := PyDict.modifyE_ok_inv hdb2
        rw [PyDict.getE_set_self] at hb1
        cases hb1
        injection h with h
        subst h
        refine ⟨rfl, rfl, rfl, rfl, ⟨d, ny, rfl, hny, rfl⟩, fun _ => rfl,
          ?_, ?_, by simp [ht], ⟨b0, hb0, rfl⟩⟩
        · intro g hgn
          cases hgn
        · intro hnil
          cases hnil
    case some.some.nil.intro.intro.intro.intro =>
      obtain ⟨gb, hgb, h⟩ := bind_ok_inv h
      obtain ⟨ng, hng, rfl⟩ := PyDict.modifyE_ok_inv hgb
      split_ifs at h with ht <;>
      · obtain ⟨db1, hdb1, h⟩ := bind_ok_inv h
        obtain ⟨b0, hb0, rfl⟩ := PyDict.modifyE_ok_inv hdb1
        obtain ⟨db2, hdb2, h⟩ := bind_ok_inv h
        obtain ⟨b1, hb1, rfl⟩ := PyDict.modifyE_ok_inv hdb2
        rw [PyDict.getE_set_self] at hb1
        cases hb1
        injection h with h
        subst h
        refine ⟨rfl, rfl, rfl, rfl, ⟨d, ny, rfl, hny, rfl⟩, ?_,
          ?_, fun _ => rfl, by simp [ht], ⟨b0, hb0, rfl⟩⟩
        · intro hgn
          cases hgn
        · intro g' hg'
          cases hg'
          exact ⟨ng, hng, rfl⟩
    case some.some.cons.intro.intro.intro.intro =>
      obtain ⟨gb, hgb, h⟩ := bind_ok_inv h
      obtain ⟨ng, hng, rfl⟩ := PyDict.modifyE_ok_inv hgb
      obtain ⟨pc, _hpc, h⟩ := bind_ok_inv h
      split_ifs at h with ht <;>
      · obtain ⟨db1, hdb1, h⟩ := bind_ok_inv h
        obtain ⟨b0, hb0, rfl⟩ := PyDict.modifyE_ok_inv hdb1
        obtain ⟨db2, hdb2, h⟩ := bind_ok_inv h
        obtain ⟨b1, hb1, rfl⟩ := PyDict.modifyE_ok_inv hdb2
        rw [PyDict.getE_set_self] at hb1
        cases hb1
        injection h with h
        subst h
        refine ⟨rfl, rfl, rfl, rfl, ⟨d, ny, rfl, hny, rfl⟩, ?_,
          ?_, ?_, by simp [ht], ⟨b0, hb0, rfl⟩⟩
        · intro hgn
          cases hgn
        · intro g' hg'
          cases hg'
          exact ⟨ng, hng, rfl⟩
        · intro hnil
          cases hnil

/-- The stats state produced by a failed-video update on the fresh
state at concrete inputs (used by the C2 witness). -/
def updFailSampleStats : Stats where
  total_videos := 1
  processed_videos := 0
  failed_videos := 1
  total_segments := 0
  total_political_segments := 0
  videos_by_year := ⟨[(2020, 1)], some 0⟩
  videos_by_guest := ⟨[("Alice", 1)], some 0⟩
  political_categories := ⟨[("core_politics", 1)], some 0⟩
  processing_times := [2]
  error_counts := ⟨[], some 0⟩
  daily_stats := ⟨[(0, ⟨1, 3, 0⟩)], some DailyBucket.zero⟩

/-- Witness for the C2 amended theorem at a concrete input. -/
theorem update_video_processed_failure_profile_witness :
    update_video_processed init_stats (some sampleVideo) false 3 2 0 =
      .ok updFailSampleStats ∧
    updFailSampleStats.total_videos = init_stats.total_videos + 1 ∧
    updFailSampleStats.failed_videos = init_stats.failed_videos + 1 ∧
    updFailSampleStats.processed_videos = init_stats.processed_videos := by
  have heq : update_video_processed init_stats (some sampleVideo) false 3 2 0 =
      .ok updFailSampleStats := by rfl
  obtain ⟨h1, h2, h3, -⟩ :=
    update_video_processed_failure_profile init_stats updFailSampleStats
      sampleVideo 3 2 0 heq
  exact ⟨heq, h1, h2, h3⟩

/-!  ### C3: `validate_video_metadata`  -/

/-- A stored video whose `episode_number` is the integer `0`:
present, not a positive integer, but falsy in Python. -/
def vEp0 : Video :=
  ⟨"vid1", "Title", some ⟨2020, 0⟩, "JRE", some 0, some 1, [], none, false⟩

/-- C3 counterexample: `episode_number = 0` is present and not a
positive integer, yet `validate_video_metadata` raises no
`episode_number` issue and reports the video valid, because
`if video.episode_number:` treats `0` as absent. -/
theorem validate_video_metadata_episode_zero_unflagged :
    vEp0.episode_number = some 0 ∧ ¬(1 ≤ (0 : Int)) ∧
    "episode_number" ∉ ((validate_video_metadata vEp0 ⟨2025, 0⟩).2.map Prod.fst) ∧
    (validate_video_metadata vEp0 ⟨2025, 0⟩).1 = true := by
  refine ⟨rfl, by decide, ?_, rfl⟩
  decide

theorem ite_append_split (c : Prop) [Decidable c] (l x : List α) :
    (if c then l ++ x else l) = l ++ (if c then x else []) := by
  split <;> simp

set_option maxHeartbeats 1000000 in
/-- C3 amended: `validate_video_metadata` flags exactly these
conditions — the issue keys, in insertion order, are `missing_<field>`
per empty required field, `future_date` / `date_range` for an
out-of-window publication date, `episode_number` when the episode
number is present *and nonzero* but not a positive integer (`0`
escapes the `if video.episode_number:` truthiness test), and
`political_score` when the score is present but outside `[0, 1]` —
and `valid` is true iff no issue was set. -/
theorem validate_video_metadata_flags (video : Video) (now : PyDateTime) :
    ((validate_video_metadata video now).1 = true ↔
      (validate_video_metadata video now).2 = []) ∧
    (validate_video_metadata video now).2.map Prod.fst =
      (if video.title = "" then ["missing_title"] else []) ++
      (if video.published_at = none then ["missing_published_at"] else []) ++
      (if video.video_id = "" then ["missing_video_id"] else []) ++
      (if video.channel_title = "" then ["missing_channel_title"] else []) ++
      (match video.published_at with
        | some d =>
          (if now.ltb d = true then ["future_date"] else []) ++
          (if d.ltb dt2017 = true then ["date_range"] else [])
        | none => []) ++
      (match video.episode_number with
        | some n => if n ≠ 0 ∧ n < 1 then ["episode_number"] else []
        | none => []) ++
      (match video.political_score with
        | some p => if ¬(0 ≤ p ∧ p ≤ 1) then ["political_score"] else []
        | none => []) := by
  obtain ⟨vid, title, pub, chan, ep, ps, cats, guest, proc⟩ := video
  rcases pub with _ | dpub <;> rcases ep with _ | n <;> rcases ps with _ | p <;>
    refine ⟨by simp [validate_video_metadata, List.isEmpty_iff], ?_⟩ <;>
    simp only [validate_video_metadata, ite_append_split, List.nil_append,
      List.append_assoc, List.map_append, apply_ite (List.map Prod.fst),
      List.map_cons, List.map_nil, beq_iff_eq, ne_eq, Option.isNone_none,
      Option.isNone_some] <;>
    (split_ifs <;> rfl)

/-!  ### C5: `calculate_political_score`  -/

theorem foldl_score_fst (text : String) (l : List (String × List String))
    (a : ℚ) (cats : List String) :
    (l.foldl (fun (acc : ℚ × List String) c =>
      let matchCount := countMatches text c.2
      if matchCount > 0 then (acc.1 + matchCount * (1 / 5), acc.2 ++ [c.1])
      else acc) (a, cats)).1
    = a + (l.map (fun c => (countMatches text c.2 : ℚ) * (1 / 5))).sum := by
  induction l generalizing a cats with
  | nil => simp
  | cons c rest ih =>
    simp only [List.foldl_cons, List.map_cons, List.sum_cons]
    rcases Nat.eq_zero_or_pos (countMatches text c.2) with h | h
    · rw [if_neg (by omega), ih, h]
      push_cast
      ring
    · rw [if_pos h, ih]
      ring

/-- The score is the clamped sum of `matches * 0.2` over the
per-category match counts. -/
theorem calculate_political_score_eq (title description : String) :
    (calculate_political_score title description).1 =
      min (((categoryMatches title description).map
        (fun m : Nat => (m : ℚ) * (1 / 5))).sum) 1 := by
  simp only [calculate_political_score, categoryMatches, foldl_score_fst,
    List.map_map, zero_add]
  rfl

theorem sum_mul_fifth_mono {ms ms' : List Nat}
    (h : List.Forall₂ (· ≤ ·) ms ms') :
    (ms.map (fun m : Nat => (m : ℚ) * (1 / 5))).sum ≤
      (ms'.map (fun m : Nat => (m : ℚ) * (1 / 5))).sum := by
  induction h with
  | nil => simp
  | cons hab _ ih =>
    simp only [List.map_cons, List.sum_cons]
    exact add_le_add (mul_le_mul_of_nonneg_right (by exact_mod_cast hab)
      (by norm_num)) ih

/-- C5: the political score is clamped to at most `1.0`, and it is
monotonically non-decreasing in the per-category keyword match counts:
a pair of inputs whose match count in every category is at least the
other's scores at least as high. -/
theorem calculate_political_score_clamped_monotone :
    ∀ title description titleB descriptionB : String,
      (calculate_political_score title description).1 ≤ 1 ∧
      (List.Forall₂ (· ≤ ·) (categoryMatches title description)
          (categoryMatches titleB descriptionB) →
        (calculate_political_score title description).1 ≤
          (calculate_political_score titleB descriptionB).1) := by
  intro t dsc t' dsc'
  constructor
  · rw [calculate_political_score_eq]
    exact min_le_right _ _
  · intro h
    rw [calculate_political_score_eq, calculate_political_score_eq]
    exact min_le_min (sum_mul_fifth_mono h) le_rfl

/-- Witness for C5 at concrete inputs: adding a matching keyword
occurrence (`election`) raises every hypothesis count and the theorem
yields the score comparison. -/
theorem calculate_political_score_clamped_monotone_witness :
    List.Forall₂ (· ≤ ·) (categoryMatches "politics" "")
      (categoryMatches "politics election" "") ∧
    (calculate_political_score "politics" "").1 ≤ 1 ∧
    (calculate_political_score "politics" "").1 ≤
      (calculate_political_score "politics election" "").1 := by
  have e1 : categoryMatches "politics" "" = [1, 0, 0, 0, 0] := by decide
  have e2 : categoryMatches "politics election" "" = [2, 0, 0, 0, 0] := by decide
  have h : List.Forall₂ (· ≤ ·) (categoryMatches "politics" "")
      (categoryMatches "politics election" "") := by
    rw [e1, e2]
    exact .cons (by omega) (.cons le_rfl (.cons le_rfl (.cons le_rfl
      (.cons le_rfl .nil))))
  obtain ⟨h1, h2⟩ :=
    calculate_political_score_clamped_monotone "politics" "" "politics election" ""
  exact ⟨h, h1, h2 h⟩

/-!  ### C6 and C9: `check_duplicate_videos`  -/

/-- C6: a store of exactly two videos whose titles agree
case-insensitively yields exactly one duplicate group, tagged
`similar_titles`, containing both videos (the title comparison
short-circuits, so the episode numbers are never touched). -/
theorem check_duplicate_videos_two_equal_titles (a b : Video)
    (h : pyLower a.title = pyLower b.title) :
    check_duplicate_videos [a, b] = .ok [⟨[a, b], "similar_titles"⟩] := by
  simp [check_duplicate_videos, duplicate_scan, similar_titles_check, h, ok_bind]

/-- Two videos with case-insensitively equal titles. -/
def vTitleA : Video :=
  ⟨"a", "Alpha", some ⟨2020, 0⟩, "JRE", some 1, none, [], none, false⟩

def vTitleB : Video :=
  ⟨"b", "alpha", some ⟨2020, 0⟩, "JRE", none, none, [], none, false⟩

/-- Witness for C6 at concrete videos. -/
theorem check_duplicate_videos_two_equal_titles_witness :
    pyLower vTitleA.title = pyLower vTitleB.title ∧
    check_duplicate_videos [vTitleA, vTitleB] =
      .ok [⟨[vTitleA, vTitleB], "similar_titles"⟩] :=
  ⟨by decide, check_duplicate_videos_two_equal_titles vTitleA vTitleB (by decide)⟩

/-- Two adjacent videos with different titles, one missing its episode
number. -/
def vAlphaEp : Video :=
  ⟨"a", "Alpha", some ⟨2020, 0⟩, "JRE", some 1, none, [], none, false⟩

def vBetaNoEp : Video :=
  ⟨"c", "Beta", some ⟨2020, 0⟩, "JRE", none, none, [], none, false⟩

/-- C9: `check_duplicate_videos` is *not* total — when two adjacent
videos have case-insensitively different titles and one episode number
is `NULL`, `abs(current.episode_number - next_video.episode_number)`
raises `TypeError` instead of yielding a defined comparison. -/
theorem check_duplicate_videos_none_episode_raises :
    vAlphaEp.episode_number = some 1 ∧ vBetaNoEp.episode_number = none ∧
    pyLower vAlphaEp.title ≠ pyLower vBetaNoEp.title ∧
    check_duplicate_videos [vAlphaEp, vBetaNoEp] = .error "TypeError" :=
  ⟨rfl, rfl, by decide, rfl⟩

/-!  ### C7: `get_transcript_with_backoff`  -/

theorem backoff_loop_attempts_le (fetch : Nat → FetchResult) :
    ∀ (fuel attempt : Nat), (backoff_loop fetch attempt fuel).attempts ≤ fuel := by
  intro fuel
  induction fuel with
  | zero => intro a; exact Nat.le_refl 0
  | succ n ih =>
    intro a
    simp only [backoff_loop]
    cases fetch a with
    | ok t => exact Nat.succ_le_succ (Nat.zero_le n)
    | err m =>
      by_cases h : is_rate_limited m
      · simp only [h, if_true]
        exact Nat.succ_le_succ (ih (a + 1))
      · simp only [h, Bool.false_eq_true, if_false]
        exact Nat.succ_le_succ (Nat.zero_le n)

/-- C7: the backoff loop makes at most 3 fetch attempts; three
rate-limit-class errors in a row exhaust the attempts, sleeping
`2^0, 2^1, 2^2` seconds, and return no transcript; a non-rate-limit
error at attempt `k` (after `k` rate-limited attempts, each having
slept `2^attempt`) returns no transcript immediately with exactly
`k + 1` attempts made and no further sleep. -/
theorem get_transcript_with_backoff_policy (fetch : Nat → FetchResult) :
    (get_transcript_with_backoff fetch).attempts ≤ 3 ∧
    ((∀ k, k < 3 → ∃ m, fetch k = .err m ∧ is_rate_limited m = true) →
      (get_transcript_with_backoff fetch).result = none ∧
      (get_transcript_with_backoff fetch).sleeps = [1, 2, 4] ∧
      (get_transcript_with_backoff fetch).attempts = 3) ∧
    (∀ k m, k < 3 →
      (∀ j, j < k → ∃ m', fetch j = .err m' ∧ is_rate_limited m' = true) →
      fetch k = .err m → is_rate_limited m = false →
      (get_transcript_with_backoff fetch).result = none ∧
      (get_transcript_with_backoff fetch).attempts = k + 1 ∧
      (get_transcript_with_backoff fetch).sleeps =
        (List.range k).map (2 ^ ·)) := by
  refine ⟨backoff_loop_attempts_le fetch 3 0, ?_, ?_⟩
  · intro hrl
    obtain ⟨m0, h0, r0⟩ := hrl 0 (by omega)
    obtain ⟨m1, h1, r1⟩ := hrl 1 (by omega)
    obtain ⟨m2, h2, r2⟩ := hrl 2 (by omega)
    have e : get_transcript_with_backoff fetch = ⟨none, [1, 2, 4], 3⟩ := by
      simp [get_transcript_with_backoff, backoff_loop, h0, r0, h1, r1, h2, r2]
    rw [e]
    exact ⟨rfl, rfl, rfl⟩
  · intro k m hk hprev herr hnrl
    interval_cases k
    · have e : get_transcript_with_backoff fetch = ⟨none, [], 1⟩ := by
        simp [get_transcript_with_backoff, backoff_loop, herr, hnrl]
      rw [e]
      exact ⟨rfl, rfl, rfl⟩
    · obtain ⟨m0, h0, r0⟩ := hprev 0 (by omega)
      have e : get_transcript_with_backoff fetch = ⟨none, [1], 2⟩ := by
        simp [get_transcript_with_backoff, backoff_loop, h0, r0, herr, hnrl]
      rw [e]
      exact ⟨rfl, rfl, rfl⟩
    · obtain ⟨m0, h0, r0⟩ := hprev 0 (by omega)
      obtain ⟨m1, h1, r1⟩ := hprev 1 (by omega)
      have e : get_transcript_with_backoff fetch = ⟨none, [1, 2], 3⟩ := by
        simp [get_transcript_with_backoff, backoff_loop, h0, r0, h1, r1,
          herr, hnrl]
      rw [e]
      exact ⟨rfl, rfl, rfl⟩

/-- Witness for C7 at two concrete fetch oracles: one that is
rate-limited on every attempt, and one whose second attempt fails with
a non-rate-limit error. -/
theorem get_transcript_with_backoff_policy_witness :
    ((get_transcript_with_backoff
        (fun _ => .err "HTTP 429: Too Many Requests")).result = none ∧
      (get_transcript_with_backoff
        (fun _ => .err "HTTP 429: Too Many Requests")).sleeps = [1, 2, 4]) ∧
    ((get_transcript_with_backoff
        (fun k => if k = 0 then .err "Too Many Requests"
                  else .err "Subtitles are disabled")).result = none ∧
      (get_transcript_with_backoff
        (fun k => if k = 0 then .err "Too Many Requests"
                  else .err "Subtitles are disabled")).attempts = 2) := by
  constructor
  · obtain ⟨-, hall, -⟩ := get_transcript_with_backoff_policy
      (fun _ => .err "HTTP 429: Too Many Requests")
    obtain ⟨hres, hsleep, -⟩ := hall (fun k _ => ⟨_, rfl, by decide⟩)
    exact ⟨hres, hsleep⟩
  · obtain ⟨-, -, hother⟩ := get_transcript_with_backoff_policy
      (fun k => if k = 0 then .err "Too Many Requests"
                else .err "Subtitles are disabled")
    obtain ⟨hres, hatt, -⟩ := hother 1 "Subtitles are disabled" (by omega)
      (fun j hj => by interval_cases j; exact ⟨_, rfl, by decide⟩)
      (by decide) (by decide)
    exact ⟨hres, hatt⟩

/-!  ### C4 and C10: `process_video` against the store  -/

theorem find?_filter_not {α : Type} (p : α → Bool) (l : List α) :
    (l.filter (fun x => !(p x))).find? p = none := by
  induction l with
  | nil => rfl
  | cons x rest ih =>
    by_cases h : p x
    · simp [List.filter_cons, h, ih]
    · simp [List.filter_cons, h, ih]

theorem filter_not_filter {α : Type} (p : α → Bool) (l : List α) :
    (l.filter (fun x => !(p x))).filter p = [] := by
  rw [List.filter_filter]
  simp

/-- Marking a row preserves the lookup key, so `find?` over the marked
table returns the marked row. -/
theorem find?_map_mark_of_found (l : List Video) (vid : String) (w : Video)
    (hw : l.find? (fun v => v.video_id == vid) = some w) :
    (l.map (fun v => if v.video_id == vid then
        { v with is_processed := true } else v)).find?
      (fun v => v.video_id == vid) = some { w with is_processed := true } := by
  induction l with
  | nil => cases hw
  | cons x rest ih =>
    cases hb : (x.video_id == vid) with
    | true =>
      simp only [List.find?, hb] at hw
      injection hw with hw
      subst hw
      simp [List.find?, hb]
    | false =>
      simp only [List.find?, hb] at hw
      simpa [List.find?, hb] using ih hw

/-- Freshly-built segment rows all carry the inserted video id. -/
theorem filter_new_rows (t : List RawSegment) (vid : String) :
    ((t.map (fun s => (⟨vid, s.text, s.start, s.duration⟩ : SegRow))).filter
      (fun r => r.video_id == vid)) =
      t.map (fun s => ⟨vid, s.text, s.start, s.duration⟩) := by
  apply List.filter_eq_self.mpr
  intro r hr
  obtain ⟨sgm, -, rfl⟩ := List.mem_map.1 hr
  simp

/-- One successful run of the fresh path of `process_video` (video id
not in the store, transcript fetched, `add_video` and mark-processed
succeed; the segment bulk insert commits iff `c`). -/
theorem process_video_fresh_run (d : Db) (vd : Video) (t : List RawSegment)
    (c : Bool)
    (hnone : d.videos.find? (fun v => v.video_id == vd.video_id) = none)
    (htE : t.isEmpty = false) :
    process_video_fresh d vd (some t) true c true =
      ⟨true,
       ⟨(d.videos ++ [vd]).map (fun v => if v.video_id == vd.video_id then
           { v with is_processed := true } else v),
        if c then d.segments ++
          t.map (fun s => ⟨vd.video_id, s.text, s.start, s.duration⟩)
        else d.segments⟩,
       [], some (true, t.length)⟩ := by
  have hfound : (d.videos ++ [vd]).find?
      (fun v => v.video_id == vd.video_id) = some vd := by
    rw [List.find?_append, hnone]
    rw [List.find?_cons_of_pos _ (by simp)]
    rfl
  have hfound2 := find?_map_mark_of_found (d.videos ++ [vd]) vd.video_id vd hfound
  cases c <;>
    simp only [process_video_fresh, htE, Bool.false_eq_true, if_false, if_true,
      Db.add_video, Db.add_transcript_segments, Db.mark_video_processed,
      Db.get_video, hfound, hfound2]

/-- C4: reprocessing an existing, unprocessed video first deletes the
record and (by cascade) all its stored segments, then reinserts the
refetched transcript: on a successful run the stored segment count is
exactly the new transcript's length when the bulk insert commits, and
`0` when it is rolled back — never the old count plus the new. -/
theorem process_video_reprocess_resets_segments (db : Db)
    (video_data existing : Video) (t : List RawSegment) (segCommitOk : Bool)
    (hid : video_data.video_id ≠ "")
    (hex : db.get_video video_data.video_id = some existing)
    (hunproc : existing.is_processed = false)
    (ht : t ≠ []) :
    (process_video db video_data (some t) true segCommitOk true).success = true ∧
    (process_video db video_data (some t) true segCommitOk true).db.segment_count
        video_data.video_id = if segCommitOk then t.length else 0 := by
  have hbeq : (video_data.video_id == "") = false := beq_eq_false_iff_ne.2 hid
  have htE : t.isEmpty = false := by
    cases t with
    | nil => exact absurd rfl ht
    | cons a l => rfl
  have hrun := process_video_fresh_run
    ⟨db.videos.filter (fun v => !(v.video_id == video_data.video_id)),
     db.segments.filter (fun r => !(r.video_id == video_data.video_id))⟩
    video_data t segCommitOk (find?_filter_not _ _) htE
  simp only [process_video, hbeq, Bool.false_eq_true, if_false, hex,
    hunproc, Db.delete_video, hrun]
  refine ⟨trivial, ?_⟩
  cases segCommitOk <;>
    simp [Db.segment_count, List.filter_append, filter_not_filter,
      filter_new_rows]

/-- A concrete store holding the unprocessed video `x` with two stale
segments, and a refetched three-segment transcript. -/
def dbReproc : Db :=
  ⟨[⟨"x", "Old", some ⟨2020, 0⟩, "JRE", some 1, none, [], none, false⟩],
   [⟨"x", "old", 0, 1⟩, ⟨"x", "old2", 1, 1⟩]⟩

def vReproc : Video :=
  ⟨"x", "New", some ⟨2021, 0⟩, "JRE", some 2, some 1, [], none, false⟩

def newSegs : List RawSegment := [⟨"n1", 0, 1⟩, ⟨"n2", 1, 1⟩, ⟨"n3", 2, 1⟩]

/-- Witness for C4: reprocessing over two stale segments with a
three-segment transcript stores exactly three segments (not five). -/
theorem process_video_reprocess_resets_segments_witness :
    (process_video dbReproc vReproc (some newSegs) true true true).success =
      true ∧
    (process_video dbReproc vReproc (some newSegs) true true true).db.segment_count
      "x" = newSegs.length := by
  obtain ⟨h1, h2⟩ := process_video_reprocess_resets_segments dbReproc vReproc
    ⟨"x", "Old", some ⟨2020, 0⟩, "JRE", some 1, none, [], none, false⟩
    newSegs true (by decide) rfl rfl (by decide)
  exact ⟨h1, by simpa [vReproc] using h2⟩

/-- C10: a storage fault during the segment bulk insert is swallowed —
`add_transcript_segments` rolls back and returns normally (its result
type signals no error), so `process_video` records no
`transcript_error`, still marks the video processed, reports success,
and reports `update_video_processed` with the fetched segment count
while zero segments are stored. -/
theorem process_video_swallows_segment_fault (db : Db) (video_data : Video)
    (t : List RawSegment)
    (hid : video_data.video_id ≠ "")
    (hnew : db.get_video video_data.video_id = none)
    (hseg : db.segment_count video_data.video_id = 0)
    (ht : t ≠ []) :
    (∀ (d : Db) (vid : String) (segs : List RawSegment),
        d.add_transcript_segments vid segs false = d) ∧
    (process_video db video_data (some t) true false true).success = true ∧
    (process_video db video_data (some t) true false true).db.segment_count
        video_data.video_id = 0 ∧
    "transcript_error" ∉ (process_video db video_data (some t) true false true).errors ∧
    (process_video db video_data (some t) true false true).monitored =
      some (true, t.length) ∧
    ((process_video db video_data (some t) true false true).db.get_video
        video_data.video_id).map Video.is_processed = some true := by
  have hbeq : (video_data.video_id == "") = false := beq_eq_false_iff_ne.2 hid
  have htE : t.isEmpty = false := by
    cases t with
    | nil => exact absurd rfl ht
    | cons a l => rfl
  have hnone : db.videos.find? (fun v => v.video_id == video_data.video_id) =
      none := hnew
  have hrun := process_video_fresh_run db video_data t false hnone htE
  have hfound : (db.videos ++ [video_data]).find?
      (fun v => v.video_id == video_data.video_id) = some video_data := by
    rw [List.find?_append, hnone]
    rw [List.find?_cons_of_pos _ (by simp)]
    rfl
  have hmark := find?_map_mark_of_found (db.videos ++ [video_data])
    video_data.video_id video_data hfound
  refine ⟨fun _ _ _ => rfl, ?_⟩
  simp only [process_video, hbeq, Bool.false_eq_true, if_false, hnew, hrun]
  refine ⟨trivial, ?_, by simp, trivial, ?_⟩
  · simpa [Db.segment_count] using hseg
  · simp only [Db.get_video, hmark]
    rfl

/-- Witness for C10: an empty store, a two-segment transcript, and a
faulting bulk insert: success is reported with zero stored segments. -/
theorem process_video_swallows_segment_fault_witness :
    (process_video ⟨[], []⟩ vReproc (some newSegs) true false true).success =
      true ∧
    (process_video ⟨[], []⟩ vReproc (some newSegs) true false true).db.segment_count
      "x" = 0 ∧
    (process_video ⟨[], []⟩ vReproc (some newSegs) true false true).monitored =
      some (true, 3) := by
  obtain ⟨-, h1, h2, -, h3, -⟩ := process_video_swallows_segment_fault
    ⟨[], []⟩ vReproc newSegs (by decide) rfl rfl (by decide)
  exact ⟨h1, h2, h3⟩

end JRE
